import Mathlib

/-!
Verification of the peak-model composition engine of `TSinglePeak`
(`src/libraries/TGRSIAnalysis/TPeakFitting/TSinglePeak.cxx`).

Doubles are modelled as rationals (`ℚ`), flat parameter arrays as `List ℚ`.
ROOT's `TF1` is modelled at the interface this file uses: a parameter count,
a flat parameter array, a display range, line attributes and an evaluation
body.  The pure virtual methods `PeakFunction` and `BackgroundFunction`
(supplied by concrete peak-shape subclasses that are outside this file) are
modelled as function-valued fields of the `TSinglePeak` state.  The member
pointers `fTotalFunction`, `fBackgroundFunction` and `fGlobalBackground` are
modelled as `Option TF1`; calling a method through a null pointer is modelled
as the error `Err.nullDereference`.
-/

/-- The error taxonomy of the specification, plus the undefined-behaviour
outcome of calling a method through a null pointer, which is what the code
actually does where the specification prescribes `NotInitialized`. -/
inductive Err where
  | indexOutOfRange
  | notInitialized
  | nullDereference
deriving DecidableEq

/-- Shallow embedding of ROOT's `TF1` at the interface `TSinglePeak.cxx`
uses: `GetNpar` is `npar`, `GetParameters`/`GetParameter` read `parameters`,
`GetRange` reads `rangeLow`/`rangeHigh`, `GetLineColor`/`GetLineStyle` read
the line attributes, and `EvalPar` applies `evalPar`. -/
structure TF1 where
  name : String
  npar : Nat
  parameters : List ℚ
  rangeLow : ℚ
  rangeHigh : ℚ
  lineColor : Int
  lineStyle : Int
  evalPar : ℚ → List ℚ → ℚ

/-- ROOT `TAttLine` default line colour for a freshly constructed `TF1`. -/
def defaultLineColor : Int := 1

/-- ROOT `TAttLine` default line style for a freshly constructed `TF1`. -/
def defaultLineStyle : Int := 1

/-- `TF1::GetParameter(i)`: read one parameter value. -/
def TF1.getParameter (f : TF1) (i : Nat) : ℚ :=
  f.parameters.getD i 0

/-- `TF1::SetParameters(const Double_t*)`: copy `npar` values from the given
flat array into the function's parameter array. -/
def TF1.setParameters (f : TF1) (ps : List ℚ) : TF1 :=
  { f with parameters := (List.range f.npar).map (fun i => ps.getD i 0) }

/-- The state of a `TSinglePeak` object.  `peakFunction` and
`backgroundFunction` are the pure virtual methods `PeakFunction` and
`BackgroundFunction` implemented by the concrete peak-shape subclass;
`fListOfBGPars`, `fTotalFunction`, `fBackgroundFunction` and
`fGlobalBackground` are the data members of `TSinglePeak`. -/
structure TSinglePeak where
  peakFunction : ℚ → List ℚ → ℚ
  backgroundFunction : ℚ → List ℚ → ℚ
  fListOfBGPars : List Bool
  fTotalFunction : Option TF1
  fBackgroundFunction : Option TF1
  fGlobalBackground : Option TF1

/-- `TSinglePeak::IsBackgroundParameter(const Int_t&)`: reads
`fListOfBGPars.at(par)`; `std::vector::at` throws `std::out_of_range` for any
index outside `[0, size)` (a negative `Int_t` converts to a huge unsigned
index), and the `catch` block prints a warning and returns `true`. -/
def TSinglePeak.IsBackgroundParameter (p : TSinglePeak) (par : Int) : Bool :=
  if 0 ≤ par ∧ par.toNat < p.fListOfBGPars.length then
    p.fListOfBGPars.getD par.toNat true
  else
    true

/-- `TSinglePeak::IsPeakParameter`: the literal negation of
`IsBackgroundParameter`. -/
def TSinglePeak.IsPeakParameter (p : TSinglePeak) (par : Int) : Bool :=
  !p.IsBackgroundParameter par

/-- `TSinglePeak::GetNParameters`: `fTotalFunction->GetNpar()` when the total
function exists, otherwise `0`. -/
def TSinglePeak.GetNParameters (p : TSinglePeak) : Nat :=
  match p.fTotalFunction with
  | some tf => tf.npar
  | none => 0

/-- `TSinglePeak::GetBackgroundFunction`: on first call (cache empty)
constructs `new TF1("peak_bg", this, &TSinglePeak::BackgroundFunction, 0, 1,
fTotalFunction->GetNpar(), ...)` (which dereferences `fTotalFunction`),
sets its line style to `9`, stores it in `fBackgroundFunction` and returns
it; on later calls returns the cached instance.  A freshly constructed
`TF1`'s parameters are zero-initialised. -/
def TSinglePeak.GetBackgroundFunction (p : TSinglePeak) :
    Except Err (TF1 × TSinglePeak) :=
  match p.fBackgroundFunction with
  | some bg => .ok (bg, p)
  | none =>
    match p.fTotalFunction with
    | none => .error .nullDereference
    | some tf =>
      let bg : TF1 :=
        { name := "peak_bg"
          npar := tf.npar
          parameters := List.replicate tf.npar 0
          rangeLow := 0
          rangeHigh := 1
          lineColor := defaultLineColor
          lineStyle := 9
          evalPar := p.backgroundFunction }
      .ok (bg, { p with fBackgroundFunction := some bg })

/-- Virtual dispatch to the subclass's `PeakFunction` body. -/
def TSinglePeak.PeakFunction (p : TSinglePeak) (dim : ℚ) (par : List ℚ) : ℚ :=
  p.peakFunction dim par

/-- Virtual dispatch to the subclass's `BackgroundFunction` body. -/
def TSinglePeak.BackgroundFunction (p : TSinglePeak) (dim : ℚ) (par : List ℚ) : ℚ :=
  p.backgroundFunction dim par

/-- `TSinglePeak::TotalFunction(Double_t*, Double_t*)`:
`PeakFunction(dim, par) + BackgroundFunction(dim, par)`, both receiving the
full parameter array. -/
def TSinglePeak.TotalFunction (p : TSinglePeak) (dim : ℚ) (par : List ℚ) : ℚ :=
  p.PeakFunction dim par + p.BackgroundFunction dim par

/-- `TSinglePeak::UpdateBackgroundParameters`:
`fBackgroundFunction->SetParameters(fTotalFunction->GetParameters())` with no
null check on either pointer. -/
def TSinglePeak.UpdateBackgroundParameters (p : TSinglePeak) :
    Except Err TSinglePeak :=
  match p.fBackgroundFunction with
  | none => .error .nullDereference
  | some bg =>
    match p.fTotalFunction with
    | none => .error .nullDereference
    | some tf =>
      .ok { p with fBackgroundFunction := some (bg.setParameters tf.parameters) }

/-- `TSinglePeak::PeakOnGlobalFunction(Double_t* dim, Double_t* par)`:
`0` when `fGlobalBackground` is null, otherwise
`PeakFunction(dim, par) + fGlobalBackground->EvalPar(dim,
&par[fTotalFunction->GetNpar()])` — note that `PeakFunction` receives the
full `par` array, and that `fTotalFunction` is dereferenced for the split
point. -/
def TSinglePeak.PeakOnGlobalFunction (p : TSinglePeak) (dim : ℚ)
    (par : List ℚ) : Except Err ℚ :=
  match p.fGlobalBackground with
  | none => .ok 0
  | some g =>
    match p.fTotalFunction with
    | none => .error .nullDereference
    | some tf =>
      .ok (p.peakFunction dim par + g.evalPar dim (par.drop tf.npar))

/-- `TSinglePeak::Draw(Option_t*)`: returns immediately when
`fGlobalBackground` is null; otherwise builds a temporary `TF1` over
`fTotalFunction->GetNpar() + fGlobalBackground->GetNpar()` parameters on the
global background's range, copies the first `N` parameter values from the
total function and the next `M` from the global background, copies the total
function's line colour and style onto it, draws it and deletes it.  The
first component of the result is the temporary curve as it was drawn
(`none` for the silent no-op), the second the object state afterwards; the
temporary is not retained in the state. -/
def TSinglePeak.Draw (p : TSinglePeak) : Except Err (Option TF1 × TSinglePeak) :=
  match p.fGlobalBackground with
  | none => .ok (none, p)
  | some g =>
    match p.fTotalFunction with
    | none => .error .nullDereference
    | some tf =>
      let tmp : TF1 :=
        { name := "draw_peak"
          npar := tf.npar + g.npar
          parameters :=
            (List.range tf.npar).map (fun i => tf.getParameter i) ++
              (List.range g.npar).map (fun i => g.getParameter i)
          rangeLow := g.rangeLow
          rangeHigh := g.rangeHigh
          lineColor := tf.lineColor
          lineStyle := tf.lineStyle
          evalPar := fun dim par => p.peakFunction dim par + g.evalPar dim (par.drop tf.npar) }
      .ok (some tmp, p)

/-- A trivial evaluation body, used by the concrete example states. -/
def zeroFn : ℚ → List ℚ → ℚ := fun _ _ => 0

/-- A concrete total function with two parameters. -/
def tfA : TF1 :=
  { name := "total", npar := 2, parameters := [10, 5], rangeLow := 0,
    rangeHigh := 10, lineColor := 2, lineStyle := 1, evalPar := zeroFn }

/-- A concrete global-background function with one parameter. -/
def gbA : TF1 :=
  { name := "global_bg", npar := 1, parameters := [7], rangeLow := 1,
    rangeHigh := 9, lineColor := 4, lineStyle := 2, evalPar := zeroFn }

/-- A concrete `TSinglePeak` with a two-entry classification table and no
function pointers set. -/
def exC1 : TSinglePeak :=
  { peakFunction := zeroFn, backgroundFunction := zeroFn,
    fListOfBGPars := [false, true], fTotalFunction := none,
    fBackgroundFunction := none, fGlobalBackground := none }

/-- A concrete `TSinglePeak` whose total function is `tfA` and whose global
background is `gbA`; the background-function cache is empty. -/
def exA : TSinglePeak :=
  { peakFunction := zeroFn, backgroundFunction := zeroFn,
    fListOfBGPars := [true, false], fTotalFunction := some tfA,
    fBackgroundFunction := none, fGlobalBackground := some gbA }

/-- A concrete one-parameter total function. -/
def tf3 : TF1 :=
  { name := "total", npar := 1, parameters := [10], rangeLow := 0,
    rangeHigh := 10, lineColor := 2, lineStyle := 1, evalPar := zeroFn }

/-- A concrete one-parameter global background. -/
def g3 : TF1 :=
  { name := "global_bg", npar := 1, parameters := [7], rangeLow := 1,
    rangeHigh := 9, lineColor := 4, lineStyle := 2, evalPar := zeroFn }

/-- A concrete `TSinglePeak` whose peak body reads parameter index `1`, one
past its own total function's single parameter. -/
def p3 : TSinglePeak :=
  { peakFunction := fun _ ps => ps.getD 1 0, backgroundFunction := zeroFn,
    fListOfBGPars := [false], fTotalFunction := some tf3,
    fBackgroundFunction := none, fGlobalBackground := some g3 }

/-- A `TF1` standing for an already-constructed background function cache. -/
def bgA : TF1 :=
  { name := "peak_bg", npar := 2, parameters := [0, 0], rangeLow := 0,
    rangeHigh := 1, lineColor := 1, lineStyle := 9, evalPar := zeroFn }

/-- `exA` with the background-function cache populated. -/
def exB : TSinglePeak :=
  { exA with fBackgroundFunction := some bgA }

/-- A state with a global background attached but no total function. -/
def exN : TSinglePeak :=
  { exC1 with fGlobalBackground := some gbA }

/-- Reading index `i < n` out of `(List.range n).map f` gives `f i`. -/
theorem getD_range_map (n i : Nat) (f : Nat → ℚ) (h : i < n) :
    ((List.range n).map f).getD i 0 = f i := by
  rw [List.getD_eq_getElem?_getD, List.getElem?_map, List.getElem?_range h]
  rfl

/-- C2: for every state, point and parameter vector, `TotalFunction` is
exactly `PeakFunction + BackgroundFunction`, both sub-functions receiving the
full parameter vector. -/
theorem c2_total_additive (p : TSinglePeak) (dim : ℚ) (par : List ℚ) :
    p.TotalFunction dim par = p.PeakFunction dim par + p.BackgroundFunction dim par :=
  rfl

/-- C6: `GetNParameters` returns `0` when the total function has not been
constructed, and the total function's parameter count otherwise; as a pure
function of the (unmodified) state it is stable across repeated calls. -/
theorem c6_get_n_parameters (p : TSinglePeak) :
    (p.fTotalFunction = none → p.GetNParameters = 0) ∧
      (∀ tf : TF1, p.fTotalFunction = some tf → p.GetNParameters = tf.npar) := by
  constructor
  · intro h
    simp [TSinglePeak.GetNParameters, h]
  · intro tf h
    simp [TSinglePeak.GetNParameters, h]

/-- C6 witness: with no total function the count is `0`; with `tfA` attached
it is `tfA`'s parameter count, `2`. -/
theorem c6_get_n_parameters_witness :
    TSinglePeak.GetNParameters exC1 = 0 ∧ TSinglePeak.GetNParameters exA = 2 :=
  ⟨(c6_get_n_parameters exC1).1 rfl, (c6_get_n_parameters exA).2 tfA rfl⟩

/-- C1: at the out-of-range indices `-1` and `N = 2` (the classification
table of `exC1` has two entries), `IsBackgroundParameter` returns the default
classification `true` (Background) after catching the out-of-range access
and printing a warning, and `IsPeakParameter` returns `false` — neither
operation fails with an `IndexOutOfRange` error. -/
theorem c1_out_of_range_default :
    exC1.IsBackgroundParameter (-1) = true ∧
      exC1.IsBackgroundParameter 2 = true ∧
      exC1.IsPeakParameter (-1) = false ∧
      exC1.IsPeakParameter 2 = false := by
  decide

/-- C3 counterexample: with a total function of parameter count `N = 1` and
a peak body that reads parameter index `1`, the code evaluates the peak over
the full concatenated vector `[10, 7]` and returns `7`, while the claim's
formula `peakFunction(x, params[0:N]) + globalBackground(x, params[N:N+M])`
evaluates to `0`. -/
theorem c3_counterexample :
    p3.PeakOnGlobalFunction 3 [10, 7] = Except.ok 7 ∧
      p3.peakFunction 3 (List.take tf3.npar [10, 7]) +
        g3.evalPar 3 (List.drop tf3.npar [10, 7]) = 0 ∧
      (7 : ℚ) ≠ 0 := by
  refine ⟨?_, ?_, by norm_num⟩
  · show Except.ok ((7 : ℚ) + 0) = Except.ok 7
    norm_num
  · show (0 : ℚ) + 0 = 0
    norm_num

/-- C3 (amended): `PeakOnGlobalFunction` returns `0` for every input when no
global background is attached; when one is attached (and the total function
exists), it returns the peak function evaluated over the FULL parameter
vector plus the global background evaluated over the parameters from index
`N` on, where `N` is the total function's parameter count. -/
theorem c3_peak_on_global (p : TSinglePeak) (dim : ℚ) (par : List ℚ) :
    (p.fGlobalBackground = none → p.PeakOnGlobalFunction dim par = .ok 0) ∧
      (∀ g tf : TF1, p.fGlobalBackground = some g → p.fTotalFunction = some tf →
        p.PeakOnGlobalFunction dim par =
          .ok (p.PeakFunction dim par + g.evalPar dim (par.drop tf.npar))) := by
  constructor
  · intro h
    simp [TSinglePeak.PeakOnGlobalFunction, h]
  · intro g tf hg htf
    simp [TSinglePeak.PeakOnGlobalFunction, TSinglePeak.PeakFunction, hg, htf]

/-- C3 witness: both branches at concrete states. -/
theorem c3_peak_on_global_witness :
    TSinglePeak.PeakOnGlobalFunction exA 3 [10, 5, 7] =
      Except.ok (TSinglePeak.PeakFunction exA 3 [10, 5, 7] +
        gbA.evalPar 3 (List.drop tfA.npar [10, 5, 7])) ∧
      TSinglePeak.PeakOnGlobalFunction exC1 3 [1] = Except.ok 0 :=
  ⟨(c3_peak_on_global exA 3 [10, 5, 7]).2 gbA tfA rfl rfl,
   (c3_peak_on_global exC1 3 [1]).1 rfl⟩

/-- C4: with the cache empty and the total function present, the first call
to `GetBackgroundFunction` constructs a background function whose parameter
count is the total function's, whose stored range is `[0, 1]` (and line
style `9`), stores it as the only state change, and a second call returns
exactly that cached instance with the state unchanged. -/
theorem c4_background_function_cached (p : TSinglePeak) (tf : TF1)
    (hbg : p.fBackgroundFunction = none) (htf : p.fTotalFunction = some tf) :
    ∃ bg : TF1,
      p.GetBackgroundFunction = .ok (bg, { p with fBackgroundFunction := some bg }) ∧
        bg.npar = tf.npar ∧ bg.rangeLow = 0 ∧ bg.rangeHigh = 1 ∧ bg.lineStyle = 9 ∧
        TSinglePeak.GetBackgroundFunction { p with fBackgroundFunction := some bg } =
          .ok (bg, { p with fBackgroundFunction := some bg }) := by
  obtain ⟨pf, bf, lst, tot, bgf, gb⟩ := p
  dsimp only at hbg htf
  subst hbg
  subst htf
  exact ⟨_, rfl, rfl, rfl, rfl, rfl, rfl⟩

/-- C4 witness: the theorem applied at `exA` (total function `tfA`, empty
cache). -/
theorem c4_background_function_cached_witness :
    ∃ bg : TF1,
      TSinglePeak.GetBackgroundFunction exA =
          .ok (bg, { exA with fBackgroundFunction := some bg }) ∧
        bg.npar = tfA.npar ∧ bg.rangeLow = 0 ∧ bg.rangeHigh = 1 ∧ bg.lineStyle = 9 ∧
        TSinglePeak.GetBackgroundFunction { exA with fBackgroundFunction := some bg } =
          .ok (bg, { exA with fBackgroundFunction := some bg }) :=
  c4_background_function_cached exA tfA rfl rfl

/-- C5 counterexample: with the background-function cache empty (`exA`),
`UpdateBackgroundParameters` dereferences the null `fBackgroundFunction`
pointer — it does not fail with the defined `NotInitialized` error the claim
requires. -/
theorem c5_counterexample :
    TSinglePeak.UpdateBackgroundParameters exA = Except.error Err.nullDereference ∧
      TSinglePeak.UpdateBackgroundParameters exA ≠ Except.error Err.notInitialized := by
  refine ⟨rfl, fun h => ?_⟩
  exact absurd (Except.error.inj h) (by decide)

/-- C5 (amended): when the background function exists (and the total
function too), `UpdateBackgroundParameters` copies the total function's
parameter values into it, so afterwards they agree at every matching index;
when the background function is absent the call dereferences a null pointer
(undefined behaviour in the C++), not a defined `NotInitialized` error. -/
theorem c5_update_background_parameters (p : TSinglePeak) :
    (p.fBackgroundFunction = none →
        p.UpdateBackgroundParameters = .error .nullDereference) ∧
      (∀ bg tf : TF1, p.fBackgroundFunction = some bg → p.fTotalFunction = some tf →
        p.UpdateBackgroundParameters =
            .ok { p with fBackgroundFunction := some (bg.setParameters tf.parameters) } ∧
          ∀ i : Nat, i < bg.npar → i < tf.parameters.length →
            (bg.setParameters tf.parameters).parameters.getD i 0 =
              tf.parameters.getD i 0) := by
  constructor
  · intro h
    simp [TSinglePeak.UpdateBackgroundParameters, h]
  · intro bg tf hbg htf
    constructor
    · simp [TSinglePeak.UpdateBackgroundParameters, hbg, htf]
    · intro i hi _
      simpa [TF1.setParameters] using getD_range_map bg.npar i (fun j => tf.parameters.getD j 0) hi

/-- C5 witness: updating `exB` (cache `bgA`, total function `tfA`) copies
`tfA`'s values; parameter `0` agrees afterwards. -/
theorem c5_update_background_parameters_witness :
    TSinglePeak.UpdateBackgroundParameters exB =
        Except.ok { exB with fBackgroundFunction := some (bgA.setParameters tfA.parameters) } ∧
      (bgA.setParameters tfA.parameters).parameters.getD 0 0 = tfA.parameters.getD 0 0 :=
  ⟨((c5_update_background_parameters exB).2 bgA tfA rfl rfl).1,
   ((c5_update_background_parameters exB).2 bgA tfA rfl rfl).2 0 (by decide) (by decide)⟩

/-- C8 counterexample: at the invalid index `5` (the table of `exC1` has two
entries) neither classification operation fails: `IsBackgroundParameter`
returns the default classification `true` and `IsPeakParameter` returns
`false`, contradicting the claim that both fail with the same error for
invalid indices. -/
theorem c8_counterexample :
    exC1.IsBackgroundParameter 5 = true ∧ exC1.IsPeakParameter 5 = false := by
  decide

/-- C8 (amended): `IsPeakParameter` is the logical negation of
`IsBackgroundParameter` at every index, valid or not; at invalid indices
neither fails — `IsBackgroundParameter` returns the default `true` and
`IsPeakParameter` returns `false`. -/
theorem c8_peak_negation (p : TSinglePeak) (i : Int) :
    p.IsPeakParameter i = !p.IsBackgroundParameter i ∧
      (i < 0 ∨ (p.fListOfBGPars.length : Int) ≤ i →
        p.IsBackgroundParameter i = true ∧ p.IsPeakParameter i = false) := by
  refine ⟨rfl, fun h => ?_⟩
  have hcond : ¬(0 ≤ i ∧ i.toNat < p.fListOfBGPars.length) := by omega
  constructor
  · simp [TSinglePeak.IsBackgroundParameter, hcond]
  · simp [TSinglePeak.IsPeakParameter, TSinglePeak.IsBackgroundParameter, hcond]

/-- C8 witness: the negation relation and the invalid-index defaults at the
concrete index `-1` on `exC1`. -/
theorem c8_peak_negation_witness :
    exC1.IsPeakParameter (-1) = !exC1.IsBackgroundParameter (-1) ∧
      (exC1.IsBackgroundParameter (-1) = true ∧ exC1.IsPeakParameter (-1) = false) :=
  ⟨(c8_peak_negation exC1 (-1)).1, (c8_peak_negation exC1 (-1)).2 (Or.inl (by decide))⟩

/-- C7: with a global background `g` and total function `tf` attached,
`Draw` builds a temporary function over `tf.npar + g.npar` parameters on the
global background's range, whose first `N` parameter values come in order
from the total function and next `M` in order from the global background,
and whose line colour and style are the total function's; the state after
the call does not retain the temporary (it is released after drawing). -/
theorem c7_draw_builds_composite (p : TSinglePeak) (g tf : TF1)
    (hg : p.fGlobalBackground = some g) (htf : p.fTotalFunction = some tf) :
    ∃ tmp : TF1,
      p.Draw = .ok (some tmp, p) ∧
        tmp.npar = tf.npar + g.npar ∧
        tmp.rangeLow = g.rangeLow ∧ tmp.rangeHigh = g.rangeHigh ∧
        tmp.lineColor = tf.lineColor ∧ tmp.lineStyle = tf.lineStyle ∧
        (∀ i : Nat, i < tf.npar → tmp.getParameter i = tf.getParameter i) ∧
        (∀ j : Nat, j < g.npar → tmp.getParameter (tf.npar + j) = g.getParameter j) := by
  obtain ⟨pf, bf, lst, tot, bgf, gb⟩ := p
  dsimp only at hg htf
  subst hg
  subst htf
  refine ⟨_, rfl, rfl, rfl, rfl, rfl, rfl, ?_, ?_⟩
  · intro i hi
    show (((List.range tf.npar).map fun k => tf.getParameter k) ++
        (List.range g.npar).map fun k => g.getParameter k).getD i 0 = tf.getParameter i
    rw [List.getD_append _ _ _ _ (by simpa using hi)]
    exact getD_range_map tf.npar i _ hi
  · intro j hj
    show (((List.range tf.npar).map fun k => tf.getParameter k) ++
        (List.range g.npar).map fun k => g.getParameter k).getD (tf.npar + j) 0 =
      g.getParameter j
    rw [List.getD_append_right _ _ _ _ (by simp)]
    simp only [List.length_map, List.length_range, Nat.add_sub_cancel_left]
    exact getD_range_map g.npar j _ hj

/-- C7 witness: drawing `exA` (total `tfA` with two parameters, global
background `gbA` with one) yields a three-parameter temporary whose slots
`0` and `2` carry `tfA`'s parameter `0` and `gbA`'s parameter `0`. -/
theorem c7_draw_builds_composite_witness :
    ∃ tmp : TF1,
      TSinglePeak.Draw exA = .ok (some tmp, exA) ∧ tmp.npar = 3 ∧
        tmp.rangeLow = gbA.rangeLow ∧ tmp.lineColor = tfA.lineColor ∧
        tmp.getParameter 0 = tfA.getParameter 0 ∧
        tmp.getParameter 2 = gbA.getParameter 0 := by
  obtain ⟨tmp, h1, h2, h3, _, h5, _, h7, h8⟩ :=
    c7_draw_builds_composite exA gbA tfA rfl rfl
  exact ⟨tmp, h1, by rw [h2]; decide, h3, h5, h7 0 (by decide), h8 0 (by decide)⟩

/-- C9: `Draw` is a silent no-op (no curve produced) when no global
background is attached, and whenever it returns at all it leaves the
`TSinglePeak` state — total function, cached background function, global
background reference and all their parameter values — exactly as it was. -/
theorem c9_draw_state_unchanged (p : TSinglePeak) :
    (p.fGlobalBackground = none → p.Draw = .ok (none, p)) ∧
      (∀ (out : Option TF1) (q : TSinglePeak), p.Draw = .ok (out, q) → q = p) := by
  constructor
  · intro h
    simp [TSinglePeak.Draw, h]
  · intro out q h
    obtain ⟨pf, bf, lst, tot, bgf, gb⟩ := p
    rcases gb with _ | g
    · simp [TSinglePeak.Draw] at h
      exact h.2.symm
    · rcases tot with _ | tf
      · simp [TSinglePeak.Draw] at h
      · simp [TSinglePeak.Draw] at h
        exact h.2.symm

/-- C9 witness: at `exC1` (no global background) `Draw` is the silent
no-op, and applying the frame part to that result recovers state equality. -/
theorem c9_draw_state_unchanged_witness :
    TSinglePeak.Draw exC1 = Except.ok (none, exC1) ∧ exC1 = exC1 :=
  ⟨(c9_draw_state_unchanged exC1).1 rfl,
   (c9_draw_state_unchanged exC1).2 none exC1 ((c9_draw_state_unchanged exC1).1 rfl)⟩

/-- C10: the first call to `GetBackgroundFunction`, every call to
`PeakOnGlobalFunction` with a global background attached, and every `Draw`
with a global background attached dereference `fTotalFunction`; with
`fTotalFunction` null they hit the null dereference, and under the
precondition that the total function is constructed they all succeed (the
null-dereference branch is unreachable). -/
theorem c10_total_function_precondition (p : TSinglePeak) :
    (p.fBackgroundFunction = none → p.fTotalFunction = none →
        p.GetBackgroundFunction = .error .nullDereference) ∧
      (∀ g : TF1, p.fGlobalBackground = some g → p.fTotalFunction = none →
        (∀ (dim : ℚ) (par : List ℚ),
            p.PeakOnGlobalFunction dim par = .error .nullDereference) ∧
          p.Draw = .error .nullDereference) ∧
      (∀ tf : TF1, p.fTotalFunction = some tf →
        (∃ r, p.GetBackgroundFunction = .ok r) ∧
          (∀ (dim : ℚ) (par : List ℚ), ∃ v, p.PeakOnGlobalFunction dim par = .ok v) ∧
          (∃ r, p.Draw = .ok r)) := by
  refine ⟨?_, ?_, ?_⟩
  · intro hbg htf
    simp [TSinglePeak.GetBackgroundFunction, hbg, htf]
  · intro g hg htf
    refine ⟨fun dim par => ?_, ?_⟩
    · simp [TSinglePeak.PeakOnGlobalFunction, hg, htf]
    · simp [TSinglePeak.Draw, hg, htf]
  · intro tf htf
    obtain ⟨pf, bf, lst, tot, bgf, gb⟩ := p
    dsimp only at htf
    subst htf
    refine ⟨?_, fun dim par => ?_, ?_⟩
    · rcases bgf with _ | bg
      · exact ⟨_, rfl⟩
      · exact ⟨_, rfl⟩
    · rcases gb with _ | g
      · exact ⟨_, rfl⟩
      · exact ⟨_, rfl⟩
    · rcases gb with _ | g
      · exact ⟨_, rfl⟩
      · exact ⟨_, rfl⟩

/-- C10 witness: with the total function present (`exA`) the background
function constructs successfully; with it absent but a global background
attached (`exN`), `Draw` hits the null dereference. -/
theorem c10_total_function_precondition_witness :
    (∃ r, TSinglePeak.GetBackgroundFunction exA = Except.ok r) ∧
      TSinglePeak.Draw exN = Except.error Err.nullDereference :=
  ⟨((c10_total_function_precondition exA).2.2 tfA rfl).1,
   ((c10_total_function_precondition exN).2.1 gbA rfl rfl).2⟩
